import Mathlib

/-
Verification of the cluster-configuration coordinator
(pkg/controller/foundationdbcluster/foundationdbcluster_admin_client.go).

Shallow embedding conventions:
* Go byte strings ([]byte, fdb.Key) are `List Nat`, one entry per byte.
* The key-value store seen by one transaction is an association list
  `List (Bytes × Bytes)`; reads inside a transaction see earlier writes of
  the same transaction (FoundationDB read-your-writes semantics).
* Go errors are `GoError`: either an `fdb.Error` carrying a numeric code or
  a plain error carrying a message (`errors.New` / `fmt.Errorf`).
* Fallible Go functions returning `error` become `Except String` or
  `Option GoError`.
* The store itself is deterministic in this embedding: a `Get` of the
  snapshot always succeeds.  Transient store failures and commit outcomes
  are injected at the retry-loop level (`handleAttemptError`,
  `raceCheckLoop`) through explicit error values and a `retryable`
  classification standing for `Transaction.OnError`.
-/

deriving instance DecidableEq for Except

namespace FdbCluster

/-- Byte strings: one `Nat` per byte. -/
abbrev Bytes := List Nat

/-- Bytes of an ASCII string literal, e.g. `asciiBytes "One" = [79, 110, 101]`. -/
def asciiBytes (s : String) : Bytes :=
  s.data.map Char.toNat

/-- Little-endian 4-byte encoding of a `uint32`
(`binary.LittleEndian.PutUint32`).  Taking each byte with `% 256` makes the
function agree with the Go encoding of the low 32 bits for every `Nat`. -/
def le32 (n : Nat) : Bytes :=
  [n % 256, n / 256 % 256, n / 65536 % 256, n / 16777216 % 256]

/-- The replication policies of the source: `singletonPolicy` and
`acrossPolicy{Count, Field, Subpolicy}` (source lines 436-450).  `Field` is
kept as its byte string. -/
inductive LocalityPolicy where
  | singleton : LocalityPolicy
  | across (count : Nat) (field : Bytes) (subpolicy : LocalityPolicy) : LocalityPolicy
deriving DecidableEq

/-- Policy encoding (source lines 441-443 and 454-467).  The singleton case
is the bytes of the Go literal `"\x03\x00\x00\x00One"`; the across case
mirrors the buffer writes of `acrossPolicy.BinaryRepresentation`. -/
def LocalityPolicy.binaryRepresentation : LocalityPolicy → Bytes
  | LocalityPolicy.singleton => [3, 0, 0, 0, 79, 110, 101]
  | LocalityPolicy.across count field subpolicy =>
      le32 6 ++ asciiBytes "Across" ++ le32 field.length ++ field ++ le32 count
        ++ subpolicy.binaryRepresentation

/-- Bytes of the Go literal `"\x01\x00\x04Q\xa5\x00\xdb\x0f"` (source line 16). -/
def configurationProtocolVersion : Bytes :=
  [1, 0, 4, 81, 165, 0, 219, 15]

/-- Source struct `DatabaseConfiguration` (lines 38-41). -/
structure DatabaseConfiguration where
  ReplicationMode : String
  StorageEngine : String
deriving DecidableEq

def storageReplicasKey : Bytes := 255 :: asciiBytes "/conf/storage_replicas"
def logReplicasKey : Bytes := 255 :: asciiBytes "/conf/log_replicas"
def logAntiQuorumKey : Bytes := 255 :: asciiBytes "/conf/log_anti_quorum"
def storagePolicyKey : Bytes := 255 :: asciiBytes "/conf/storage_replication_policy"
def logPolicyKey : Bytes := 255 :: asciiBytes "/conf/log_replication_policy"
def storageEngineKey : Bytes := 255 :: asciiBytes "/conf/storage_engine"
def logEngineKey : Bytes := 255 :: asciiBytes "/conf/log_engine"
def initIDKey : Bytes := 255 :: asciiBytes "/init_id"
def initFlagKey : Bytes := 255 :: asciiBytes "/conf/initialized"
def excludedKey : Bytes := 255 :: asciiBytes "/conf/excluded"

/-- The seven configuration key-value pairs assembled by
`getConfigurationKeys` once both switches have produced `policy`,
`replicas` and `engine` (source lines 70-77 and 89-92). -/
def configurationKeyList (policy : LocalityPolicy) (replicas engine : Bytes) :
    List (Bytes × Bytes) :=
  [(storageReplicasKey, replicas),
   (logReplicasKey, replicas),
   (logAntiQuorumKey, asciiBytes "0"),
   (storagePolicyKey, configurationProtocolVersion ++ policy.binaryRepresentation),
   (logPolicyKey, configurationProtocolVersion ++ policy.binaryRepresentation),
   (storageEngineKey, engine),
   (logEngineKey, engine)]

/-- The storage-engine switch of `getConfigurationKeys` (source lines
79-92): it runs only after the replication-mode switch succeeded, and on an
unknown engine the whole call returns the error with no keys. -/
def engineKeys (policy : LocalityPolicy) (replicas : Bytes) (storageEngine : String) :
    Except String (List (Bytes × Bytes)) :=
  if storageEngine = "ssd" then
    Except.ok (configurationKeyList policy replicas (asciiBytes "1"))
  else if storageEngine = "memory" then
    Except.ok (configurationKeyList policy replicas (asciiBytes "2"))
  else
    Except.error ("Unknown storage engine " ++ storageEngine)

/-- `DatabaseConfiguration.getConfigurationKeys` (source lines 43-94).  The
replication-mode switch runs first and returns its error before the storage
engine is ever examined. -/
def getConfigurationKeys (configuration : DatabaseConfiguration) :
    Except String (List (Bytes × Bytes)) :=
  if configuration.ReplicationMode = "single" then
    engineKeys LocalityPolicy.singleton (asciiBytes "1") configuration.StorageEngine
  else if configuration.ReplicationMode = "double" then
    engineKeys (LocalityPolicy.across 2 (asciiBytes "zoneid") LocalityPolicy.singleton)
      (asciiBytes "2") configuration.StorageEngine
  else if configuration.ReplicationMode = "triple" then
    engineKeys (LocalityPolicy.across 3 (asciiBytes "zoneid") LocalityPolicy.singleton)
      (asciiBytes "3") configuration.StorageEngine
  else
    Except.error ("Unknown replication mode " ++ configuration.ReplicationMode)

/-- First components of every successful `getConfigurationKeys` result. -/
def configurationKeyNames : List Bytes :=
  [storageReplicasKey, logReplicasKey, logAntiQuorumKey,
   storagePolicyKey, logPolicyKey, storageEngineKey, logEngineKey]

/-- A transaction's view of the store: an association list from keys to
values.  Keys absent from the list are absent from the store (a Go `Get`
returning `nil`). -/
abbrev Store := List (Bytes × Bytes)

/-- First matching entry, as `Transaction.Get` on the snapshot. -/
def storeLookup : Store → Bytes → Option Bytes
  | [], _ => none
  | kv :: rest, k => if kv.1 = k then some kv.2 else storeLookup rest k

/-- Replace the value of an existing key, or append a fresh entry
(`Transaction.Set` applied to a committed store). -/
def storeSet (store : Store) (k v : Bytes) : Store :=
  if store.any (fun kv => kv.1 = k) then
    store.map (fun kv => if kv.1 = k then (k, v) else kv)
  else
    store ++ [(k, v)]

/-- Remove one key (`Transaction.Clear`). -/
def storeClear (store : Store) (k : Bytes) : Store :=
  store.filter (fun kv => !(kv.1 = k : Bool))

/-- Remove every key that starts with `p` (`Transaction.ClearRange` over
`fdb.PrefixRange p`: the range from `p` to `strinc p` holds exactly the
keys extending `p`). -/
def storeClearRange (store : Store) (p : Bytes) : Store :=
  store.filter (fun kv => !(p.isPrefixOf kv.1))

/-- State accumulated by one transaction attempt: the snapshot it reads
from, the `Set` calls issued (in order), the keys passed to `Get`, the
keys passed to `AddReadConflictKey`, and the option flags set. -/
structure TxState where
  store : Store
  sets : List (Bytes × Bytes)
  reads : List Bytes
  readConflicts : List Bytes
  options : List String

/-- Latest value written to `k` by this transaction, if any. -/
def lookupSets : List (Bytes × Bytes) → Bytes → Option Bytes
  | [], _ => none
  | kv :: rest, k =>
      match lookupSets rest k with
      | some v => some v
      | none => if kv.1 = k then some kv.2 else none

/-- `Transaction.Get`: read-your-writes, falling back to the snapshot;
records the read key. -/
def txGet (st : TxState) (k : Bytes) : Option Bytes × TxState :=
  (match lookupSets st.sets k with
   | some v => some v
   | none => storeLookup st.store k,
   { st with reads := st.reads ++ [k] })

/-- `Transaction.Set`: appended to the write list. -/
def txSet (st : TxState) (k v : Bytes) : TxState :=
  { st with sets := st.sets ++ [(k, v)] }

/-- One iteration of the key loop of `configureDatabaseInTransaction`
(source lines 221-233): on a new database every key is written without a
read; otherwise the current value is read and the write happens only when
it differs from the desired value (`reflect.DeepEqual` on byte slices,
with a `nil` read modelled as `none`). -/
def configStep : Bool → TxState → Bytes × Bytes → TxState
  | true, st, kv => txSet st kv.1 kv.2
  | false, st, kv =>
      let r := txGet st kv.1
      if r.1 = some kv.2 then r.2 else txSet r.2 kv.1 kv.2

/-- `configureDatabaseInTransaction` (source lines 184-236).  Option
setting never fails in the embedding; the commit outcome is injected by
the retry-loop model, so the function returns the transaction state at
commit time (or the key-builder error, in which case nothing was staged). -/
def configureDatabaseInTransaction (configuration : DatabaseConfiguration)
    (newDatabase : Bool) (initID : Bytes) (store : Store) :
    Except String TxState :=
  match getConfigurationKeys configuration with
  | Except.error e => Except.error e
  | Except.ok keys =>
    let st : TxState :=
      if newDatabase then
        { store := store
          sets := [(initIDKey, initID), (initFlagKey, asciiBytes "1")]
          reads := []
          readConflicts := [initIDKey]
          options := ["AccessSystemKeys", "LockAware", "PrioritySystemImmediate",
                      "InitializeNewDatabase"] }
      else
        { store := store
          sets := []
          reads := []
          readConflicts := []
          options := ["AccessSystemKeys", "LockAware", "PrioritySystemImmediate",
                      "CausalWriteRisky"] }
    Except.ok (keys.foldl (configStep newDatabase) st)

/-- A Go `error` value as this file distinguishes them: an `fdb.Error`
struct carrying a numeric `Code`, or any other error carrying its
message. -/
inductive GoError where
  | fdbError (code : Nat) : GoError
  | plainError (msg : String) : GoError
deriving DecidableEq

/-- The two-value type assertion `err.(fdb.Error)` succeeds exactly on
`fdbError`. -/
def GoError.isFdb : GoError → Bool
  | GoError.fdbError _ => true
  | GoError.plainError _ => false

/-- `checkConfigurationInitID` (source lines 243-265): re-read
`\xff/init_id` and compare it with this attempt's token using
`reflect.DeepEqual`.  An absent key reads as `nil`, which never equals the
16-byte token, so it also loses.  The read itself is deterministic in this
embedding. -/
def checkConfigurationInitID (store : Store) (initID : Bytes) : Option GoError :=
  match storeLookup store initIDKey with
  | some currentID =>
      if currentID = initID then none
      else some (GoError.plainError "Database has already been created")
  | none => some (GoError.plainError "Database has already been created")

/-- The race-check loop of `ConfigureDatabase` (source lines 156-170),
entered after a new-database attempt failed with code 1020 or 1007.
`retryable` stands for `Transaction.OnError`: `true` means OnError absorbs
the error and the loop runs again (fuelled), `false` means OnError returns
it.  The result is `some r` when the loop returns `r` to the caller
(`none` inside `r` is a `nil` error, i.e. success) and `none` when the
fuel runs out.

When `checkConfigurationInitID` returns its plain error, the Go code runs
`fdbErr, isFdb = err.(fdb.Error)`; the assertion fails, leaving `fdbErr`
as the zero value `fdb.Error{Code: 0}`, and line 164 executes
`return fdbErr` — so the zero-value store error is returned, not the
"Database has already been created" error that was constructed. -/
def raceCheckLoop (retryable : Nat → Bool) (store : Store) (initID : Bytes) :
    Nat → Option (Option GoError)
  | 0 => none
  | fuel + 1 =>
    match checkConfigurationInitID store initID with
    | none => some none
    | some (GoError.fdbError code) =>
        if retryable code then raceCheckLoop retryable store initID fuel
        else some (some (GoError.fdbError code))
    | some (GoError.plainError _) =>
        some (some (GoError.fdbError 0))

/-- Handling of one failed `configureDatabaseInTransaction` attempt by
`ConfigureDatabase` (source lines 150-176).  `some r` means the call
returns `r` at once; `none` means `OnError` absorbed the error and the
whole apply is retried. -/
def handleAttemptError (retryable : Nat → Bool) (newDatabase : Bool)
    (store : Store) (initID : Bytes) (e : GoError) (fuel : Nat) :
    Option (Option GoError) :=
  match e with
  | GoError.plainError m => some (some (GoError.plainError m))
  | GoError.fdbError code =>
    if newDatabase && (code == 1020 || code == 1007) then
      raceCheckLoop retryable store initID fuel
    else if retryable code then
      none
    else
      some (some (GoError.fdbError code))

/-- Per-address exclusion entry `"\xff/conf/excluded/" ++ address`
(source lines 293-299). -/
def excludedAddressKey (address : Bytes) : Bytes :=
  excludedKey ++ 47 :: address

/-- `RealAdminClient.ExcludeInstances` (source lines 269-304), as its
effect on the committed store.  `exclusionID` is the fresh random token
written to the conflict key; the read-conflict registration and the option
flags have no store effect.  Each address gains an empty-valued entry. -/
def excludeInstances (store : Store) (exclusionID : Bytes)
    (addresses : List Bytes) : Store :=
  let store := storeSet store excludedKey exclusionID
  addresses.foldl (fun store address =>
    storeSet store (excludedAddressKey address) []) store

/-- `RealAdminClient.IncludeInstances` (source lines 308-351): bump the
conflict key, then for each address clear the exact entry and range-clear
everything under `entry ++ ":"` (byte 58). -/
def includeInstances (store : Store) (exclusionID : Bytes)
    (addresses : List Bytes) : Store :=
  let store := storeSet store excludedKey exclusionID
  addresses.foldl (fun store address =>
    let key := excludedAddressKey address
    let store := storeClear store key
    storeClearRange store (key ++ [58])) store

/-- The exclusion set: every store entry under `"\xff/conf/excluded/"`
(the conflict key itself has no trailing slash and is not a member). -/
def exclusionSet (store : Store) : List Bytes :=
  (store.filter (fun kv => (excludedKey ++ [47]).isPrefixOf kv.1)).map Prod.fst

/-- Go struct `MockAdminClient` (source lines 360-365). -/
structure MockAdminClient where
  databaseConfiguration : DatabaseConfiguration
  ExcludedAddresses : List String
  ReincludedAddresses : List String

/-- `RealAdminClient.CanSafelyRemove` (source lines 355-357): the receiver
is unused and the body is `return nil, nil`. -/
def realCanSafelyRemove (addresses : List String) :
    List String × Option GoError :=
  ([], none)

/-- `MockAdminClient.CanSafelyRemove` (source lines 424-426): also
`return nil, nil`, ignoring the client state. -/
def mockCanSafelyRemove (client : MockAdminClient) (addresses : List String) :
    List String × Option GoError :=
  ([], none)

/-- Every successful `engineKeys` result has the seven fixed keys, in
order. -/
lemma engineKeys_fst (policy : LocalityPolicy) (replicas : Bytes)
    (engine : String) (keys : List (Bytes × Bytes))
    (h : engineKeys policy replicas engine = Except.ok keys) :
    keys.map Prod.fst = configurationKeyNames := by
  unfold engineKeys at h
  split_ifs at h
  · injection h with h2
    subst h2
    rfl
  · injection h with h2
    subst h2
    rfl

/-- Every successful `getConfigurationKeys` result has the seven fixed
keys, in order. -/
lemma getConfigurationKeys_fst (c : DatabaseConfiguration)
    (keys : List (Bytes × Bytes))
    (h : getConfigurationKeys c = Except.ok keys) :
    keys.map Prod.fst = configurationKeyNames := by
  unfold getConfigurationKeys at h
  split_ifs at h
  · exact engineKeys_fst _ _ _ _ h
  · exact engineKeys_fst _ _ _ _ h
  · exact engineKeys_fst _ _ _ _ h

/-- A successful key build always yields exactly seven pairs. -/
lemma getConfigurationKeys_length (c : DatabaseConfiguration)
    (keys : List (Bytes × Bytes))
    (h : getConfigurationKeys c = Except.ok keys) :
    keys.length = 7 := by
  have h2 : (keys.map Prod.fst).length = 7 := by
    rw [getConfigurationKeys_fst c keys h]
    rfl
  rwa [List.length_map] at h2

lemma configurationKeyNames_nodup : configurationKeyNames.Nodup := by decide

/-- A transaction with no staged write to `k` reads nothing from its own
write set. -/
lemma lookupSets_eq_none (k : Bytes) :
    ∀ sets : List (Bytes × Bytes), (∀ kv ∈ sets, kv.1 ≠ k) →
      lookupSets sets k = none := by
  intro sets
  induction sets with
  | nil => intro _; rfl
  | cons kv rest ih =>
      intro h
      have hrest := ih (fun kv2 hm => h kv2 (List.mem_cons_of_mem _ hm))
      have hne := h kv (List.mem_cons_self _ _)
      simp [lookupSets, hrest, hne]

/-- On a new database every key is written unconditionally, in order,
after the staged marker writes; nothing else in the state changes. -/
lemma foldl_configStep_true (keys : List (Bytes × Bytes)) :
    ∀ st : TxState, keys.foldl (configStep true) st =
      { st with sets := st.sets ++ keys } := by
  induction keys with
  | nil => intro st; simp
  | cons kv rest ih =>
      intro st
      have hstep : configStep true st kv = txSet st kv.1 kv.2 := rfl
      simp only [List.foldl_cons, hstep, ih, txSet]
      simp

lemma configStep_false_store (st : TxState) (kv : Bytes × Bytes) :
    (configStep false st kv).store = st.store := by
  simp only [configStep]
  split <;> rfl

lemma configStep_false_options (st : TxState) (kv : Bytes × Bytes) :
    (configStep false st kv).options = st.options := by
  simp only [configStep]
  split <;> rfl

lemma configStep_false_readConflicts (st : TxState) (kv : Bytes × Bytes) :
    (configStep false st kv).readConflicts = st.readConflicts := by
  simp only [configStep]
  split <;> rfl

/-- A non-new apply either skips a key or appends one staged write for it. -/
lemma configStep_false_sets (st : TxState) (kv : Bytes × Bytes) :
    (configStep false st kv).sets = st.sets ∨
    (configStep false st kv).sets = st.sets ++ [(kv.1, kv.2)] := by
  simp only [configStep]
  split
  · exact Or.inl rfl
  · exact Or.inr rfl

lemma foldl_configStep_false_store (keys : List (Bytes × Bytes)) :
    ∀ st : TxState, (keys.foldl (configStep false) st).store = st.store := by
  induction keys with
  | nil => intro st; rfl
  | cons kv rest ih =>
      intro st
      simp only [List.foldl_cons]
      rw [ih, configStep_false_store]

lemma foldl_configStep_false_options (keys : List (Bytes × Bytes)) :
    ∀ st : TxState, (keys.foldl (configStep false) st).options = st.options := by
  induction keys with
  | nil => intro st; rfl
  | cons kv rest ih =>
      intro st
      simp only [List.foldl_cons]
      rw [ih, configStep_false_options]

/-- If every key already holds its desired value in the snapshot, the
non-new loop stages no write at all. -/
lemma foldl_configStep_false_sets_nil (keys : List (Bytes × Bytes)) :
    ∀ st : TxState, st.sets = [] →
      (∀ kv ∈ keys, storeLookup st.store kv.1 = some kv.2) →
      (keys.foldl (configStep false) st).sets = [] := by
  induction keys with
  | nil => intro st h _; exact h
  | cons kv rest ih =>
      intro st hsets hall
      have hnone : lookupSets st.sets kv.1 = none := by
        rw [hsets]; rfl
      have hget : (txGet st kv.1).1 = some kv.2 := by
        simp only [txGet, hnone]
        exact hall kv (List.mem_cons_self _ _)
      have hstep : configStep false st kv = (txGet st kv.1).2 := by
        simp only [configStep]
        rw [if_pos hget]
      simp only [List.foldl_cons, hstep]
      exact ih _ hsets (fun kv2 hm => hall kv2 (List.mem_cons_of_mem _ hm))

/-- Every staged write of the non-new loop is either inherited from the
initial state or one of the loop's own keys. -/
lemma foldl_configStep_false_sets_mem (keys : List (Bytes × Bytes)) :
    ∀ (st : TxState) (kv : Bytes × Bytes),
      kv ∈ (keys.foldl (configStep false) st).sets →
      kv ∈ st.sets ∨ kv ∈ keys := by
  induction keys with
  | nil => intro st kv h; exact Or.inl h
  | cons kv0 rest ih =>
      intro st kv h
      simp only [List.foldl_cons] at h
      rcases ih _ kv h with h1 | h1
      · rcases configStep_false_sets st kv0 with h2 | h2
        · rw [h2] at h1
          exact Or.inl h1
        · rw [h2] at h1
          rcases List.mem_append.1 h1 with h3 | h3
          · exact Or.inl h3
          · right
            rw [List.mem_singleton.1 h3]
            exact List.mem_cons_self _ _
      · exact Or.inr (List.mem_cons_of_mem _ h1)

/-- Soundness of the diffing loop: provided the loop's keys are pairwise
distinct and no staged write targets them yet, every staged write is to a
key whose snapshot value differs from the desired value. -/
lemma foldl_configStep_false_sound (store : Store) (keys : List (Bytes × Bytes)) :
    ∀ st : TxState, st.store = store →
      (∀ kv ∈ st.sets, ¬ storeLookup store kv.1 = some kv.2) →
      (∀ kv ∈ st.sets, ∀ kv2 ∈ keys, kv.1 ≠ kv2.1) →
      (keys.map Prod.fst).Nodup →
      ∀ kv ∈ (keys.foldl (configStep false) st).sets,
        ¬ storeLookup store kv.1 = some kv.2 := by
  induction keys with
  | nil => intro st _ hsound _ _ kv hm; exact hsound kv hm
  | cons kv0 rest ih =>
      intro st hst hsound hdisj hnodup
      have hnone : lookupSets st.sets kv0.1 = none :=
        lookupSets_eq_none _ _ (fun kv hm => hdisj kv hm kv0 (List.mem_cons_self _ _))
      have hfst : (txGet st kv0.1).1 = storeLookup store kv0.1 := by
        simp only [txGet, hnone, hst]
      have hnodup2 : (rest.map Prod.fst).Nodup := (List.nodup_cons.1 hnodup).2
      have hnotmem : kv0.1 ∉ rest.map Prod.fst := (List.nodup_cons.1 hnodup).1
      simp only [List.foldl_cons]
      by_cases hmatch : (txGet st kv0.1).1 = some kv0.2
      · have hstep : configStep false st kv0 = (txGet st kv0.1).2 := by
          simp only [configStep]
          rw [if_pos hmatch]
        rw [hstep]
        exact ih _ hst hsound
          (fun kv hm kv2 hm2 => hdisj kv hm kv2 (List.mem_cons_of_mem _ hm2)) hnodup2
      · have hstep : configStep false st kv0 = txSet (txGet st kv0.1).2 kv0.1 kv0.2 := by
          simp only [configStep]
          rw [if_neg hmatch]
        rw [hstep]
        refine ih _ hst ?_ ?_ hnodup2
        · intro kv hm
          rcases List.mem_append.1 hm with h1 | h1
          · exact hsound kv h1
          · rw [List.mem_singleton.1 h1]
            rw [hfst] at hmatch
            exact hmatch
        · intro kv hm kv2 hm2
          rcases List.mem_append.1 hm with h1 | h1
          · exact hdisj kv h1 kv2 (List.mem_cons_of_mem _ hm2)
          · rw [List.mem_singleton.1 h1]
            intro heq
            exact hnotmem (heq ▸ List.mem_map_of_mem Prod.fst hm2)

/-- Members of a `storeSet` result are the written pair or pre-existing
entries. -/
lemma mem_storeSet (store : Store) (k v : Bytes) (kv : Bytes × Bytes)
    (h : kv ∈ storeSet store k v) : kv = (k, v) ∨ kv ∈ store := by
  unfold storeSet at h
  split_ifs at h
  · rcases List.mem_map.1 h with ⟨kv2, hm, heq⟩
    by_cases h2 : kv2.1 = k
    · rw [if_pos h2] at heq
      exact Or.inl heq.symm
    · rw [if_neg h2] at heq
      exact Or.inr (heq ▸ hm)
  · rcases List.mem_append.1 h with h1 | h1
    · exact Or.inr h1
    · exact Or.inl (List.mem_singleton.1 h1)

/-- Unfolding a successful non-new apply to its key loop. -/
lemma configureDatabaseInTransaction_false_eq (c : DatabaseConfiguration)
    (store : Store) (initID : Bytes) (keys : List (Bytes × Bytes))
    (hk : getConfigurationKeys c = Except.ok keys) :
    configureDatabaseInTransaction c false initID store =
      Except.ok (keys.foldl (configStep false)
        { store := store, sets := [], reads := [], readConflicts := [],
          options := ["AccessSystemKeys", "LockAware", "PrioritySystemImmediate",
                      "CausalWriteRisky"] }) := by
  unfold configureDatabaseInTransaction
  rw [hk]
  rfl

/-- Unfolding a successful new-database apply to its key loop. -/
lemma configureDatabaseInTransaction_true_eq (c : DatabaseConfiguration)
    (store : Store) (initID : Bytes) (keys : List (Bytes × Bytes))
    (hk : getConfigurationKeys c = Except.ok keys) :
    configureDatabaseInTransaction c true initID store =
      Except.ok (keys.foldl (configStep true)
        { store := store
          sets := [(initIDKey, initID), (initFlagKey, asciiBytes "1")]
          reads := []
          readConflicts := [initIDKey]
          options := ["AccessSystemKeys", "LockAware", "PrioritySystemImmediate",
                      "InitializeNewDatabase"] }) := by
  unfold configureDatabaseInTransaction
  rw [hk]
  rfl

/-- C3: applying a configuration with `newDatabase = false` to a store
where every configuration key already holds the desired value issues zero
writes, and in general a write is issued only for keys whose current value
differs from the desired one. -/
theorem configureDatabase_idempotent (c : DatabaseConfiguration) (store : Store)
    (initID : Bytes) (keys : List (Bytes × Bytes))
    (hk : getConfigurationKeys c = Except.ok keys) :
    ((∀ kv ∈ keys, storeLookup store kv.1 = some kv.2) →
      Except.map TxState.sets (configureDatabaseInTransaction c false initID store) =
        Except.ok []) ∧
    (∀ st, configureDatabaseInTransaction c false initID store = Except.ok st →
      ∀ kv ∈ st.sets, ¬ storeLookup store kv.1 = some kv.2) := by
  constructor
  · intro hall
    rw [configureDatabaseInTransaction_false_eq c store initID keys hk]
    have hsets := foldl_configStep_false_sets_nil keys
      { store := store, sets := [], reads := [], readConflicts := [],
        options := ["AccessSystemKeys", "LockAware", "PrioritySystemImmediate",
                    "CausalWriteRisky"] } rfl hall
    simp only [Except.map]
    rw [hsets]
  · intro st heq
    rw [configureDatabaseInTransaction_false_eq c store initID keys hk] at heq
    injection heq with heq
    subst heq
    refine foldl_configStep_false_sound store keys _ rfl ?_ ?_ ?_
    · intro kv hm
      cases hm
    · intro kv hm
      cases hm
    · rw [getConfigurationKeys_fst c keys hk]
      exact configurationKeyNames_nodup

/-- C3 witness: re-applying `{double, ssd}` over a store already holding
exactly the desired values performs zero writes. -/
theorem configureDatabase_idempotent_witness :
    (getConfigurationKeys ⟨"double", "ssd"⟩ = Except.ok
      (configurationKeyList (LocalityPolicy.across 2 (asciiBytes "zoneid")
        LocalityPolicy.singleton) (asciiBytes "2") (asciiBytes "1"))) ∧
    Except.map TxState.sets (configureDatabaseInTransaction ⟨"double", "ssd"⟩ false
      [0, 1, 2, 3, 4, 5, 6, 7, 8, 9, 10, 11, 12, 13, 14, 15]
      (configurationKeyList (LocalityPolicy.across 2 (asciiBytes "zoneid")
        LocalityPolicy.singleton) (asciiBytes "2") (asciiBytes "1"))) =
      Except.ok [] :=
  ⟨by decide,
    (configureDatabase_idempotent ⟨"double", "ssd"⟩
      (configurationKeyList (LocalityPolicy.across 2 (asciiBytes "zoneid")
        LocalityPolicy.singleton) (asciiBytes "2") (asciiBytes "1"))
      [0, 1, 2, 3, 4, 5, 6, 7, 8, 9, 10, 11, 12, 13, 14, 15]
      (configurationKeyList (LocalityPolicy.across 2 (asciiBytes "zoneid")
        LocalityPolicy.singleton) (asciiBytes "2") (asciiBytes "1"))
      (by decide)).1 (by decide)⟩

/-- C4: a new-database apply stages the attempt token at the marker key
and the "1" flag, registers a read conflict on the marker key, reads
nothing, and writes all seven configuration keys unconditionally. -/
theorem configureDatabase_newDatabase_writes (c : DatabaseConfiguration)
    (store : Store) (initID : Bytes) (keys : List (Bytes × Bytes))
    (hk : getConfigurationKeys c = Except.ok keys) :
    Except.map TxState.sets (configureDatabaseInTransaction c true initID store) =
      Except.ok ((initIDKey, initID) :: (initFlagKey, asciiBytes "1") :: keys) ∧
    Except.map TxState.readConflicts
      (configureDatabaseInTransaction c true initID store) = Except.ok [initIDKey] ∧
    Except.map TxState.reads (configureDatabaseInTransaction c true initID store) =
      Except.ok [] ∧
    Except.map TxState.options (configureDatabaseInTransaction c true initID store) =
      Except.ok ["AccessSystemKeys", "LockAware", "PrioritySystemImmediate",
                 "InitializeNewDatabase"] ∧
    keys.length = 7 := by
  rw [configureDatabaseInTransaction_true_eq c store initID keys hk,
    foldl_configStep_true]
  exact ⟨rfl, rfl, rfl, rfl, getConfigurationKeys_length c keys hk⟩

/-- C4 witness: the new-database apply for `{double, ssd}` on an empty
store stages exactly the marker, the flag and the seven keys. -/
theorem configureDatabase_newDatabase_writes_witness :
    (getConfigurationKeys ⟨"double", "ssd"⟩ = Except.ok
      (configurationKeyList (LocalityPolicy.across 2 (asciiBytes "zoneid")
        LocalityPolicy.singleton) (asciiBytes "2") (asciiBytes "1"))) ∧
    Except.map TxState.sets (configureDatabaseInTransaction ⟨"double", "ssd"⟩ true
        [0, 1, 2, 3, 4, 5, 6, 7, 8, 9, 10, 11, 12, 13, 14, 15] []) =
      Except.ok ((initIDKey, [0, 1, 2, 3, 4, 5, 6, 7, 8, 9, 10, 11, 12, 13, 14, 15]) ::
        (initFlagKey, asciiBytes "1") ::
        configurationKeyList (LocalityPolicy.across 2 (asciiBytes "zoneid")
          LocalityPolicy.singleton) (asciiBytes "2") (asciiBytes "1")) :=
  ⟨by decide,
    (configureDatabase_newDatabase_writes ⟨"double", "ssd"⟩ []
      [0, 1, 2, 3, 4, 5, 6, 7, 8, 9, 10, 11, 12, 13, 14, 15]
      (configurationKeyList (LocalityPolicy.across 2 (asciiBytes "zoneid")
        LocalityPolicy.singleton) (asciiBytes "2") (asciiBytes "1"))
      (by decide)).1⟩

/-- C9: a non-new apply writes only configuration keys: every staged write
is one of the built pairs, the marker and flag keys are never written, the
new-database intent option is never set, and the snapshot is untouched. -/
theorem configureDatabase_nonNew_frame (c : DatabaseConfiguration) (store : Store)
    (initID : Bytes) (keys : List (Bytes × Bytes))
    (hk : getConfigurationKeys c = Except.ok keys) :
    ∀ st, configureDatabaseInTransaction c false initID store = Except.ok st →
      (∀ kv ∈ st.sets, kv ∈ keys) ∧
      (∀ kv ∈ st.sets, kv.1 ≠ initIDKey ∧ kv.1 ≠ initFlagKey) ∧
      "InitializeNewDatabase" ∉ st.options ∧
      st.store = store := by
  intro st heq
  rw [configureDatabaseInTransaction_false_eq c store initID keys hk] at heq
  injection heq with heq
  subst heq
  have hsub : ∀ kv ∈ (keys.foldl (configStep false)
      { store := store, sets := [], reads := [], readConflicts := [],
        options := ["AccessSystemKeys", "LockAware", "PrioritySystemImmediate",
                    "CausalWriteRisky"] }).sets, kv ∈ keys := by
    intro kv hm
    rcases foldl_configStep_false_sets_mem keys _ kv hm with h1 | h1
    · cases h1
    · exact h1
  refine ⟨hsub, ?_, ?_, ?_⟩
  · intro kv hm
    have hname : kv.1 ∈ configurationKeyNames := by
      rw [← getConfigurationKeys_fst c keys hk]
      exact List.mem_map_of_mem Prod.fst (hsub kv hm)
    constructor
    · intro he
      rw [he] at hname
      exact absurd hname (by decide)
    · intro he
      rw [he] at hname
      exact absurd hname (by decide)
  · rw [foldl_configStep_false_options]
    show ("InitializeNewDatabase" : String) ∉
      ["AccessSystemKeys", "LockAware", "PrioritySystemImmediate", "CausalWriteRisky"]
    decide
  · rw [foldl_configStep_false_store]

/-- C9 witness: a concrete non-new apply of `{double, ssd}` on a store
holding an unrelated key writes only configuration keys. -/
theorem configureDatabase_nonNew_frame_witness :
    (getConfigurationKeys ⟨"double", "ssd"⟩ = Except.ok
      (configurationKeyList (LocalityPolicy.across 2 (asciiBytes "zoneid")
        LocalityPolicy.singleton) (asciiBytes "2") (asciiBytes "1"))) ∧
    (∀ st, configureDatabaseInTransaction ⟨"double", "ssd"⟩ false [3] [([1], [2])] =
        Except.ok st →
      (∀ kv ∈ st.sets, kv ∈ configurationKeyList (LocalityPolicy.across 2
        (asciiBytes "zoneid") LocalityPolicy.singleton) (asciiBytes "2")
        (asciiBytes "1")) ∧
      (∀ kv ∈ st.sets, kv.1 ≠ initIDKey ∧ kv.1 ≠ initFlagKey) ∧
      "InitializeNewDatabase" ∉ st.options ∧
      st.store = [([1], [2])]) :=
  ⟨by decide,
    configureDatabase_nonNew_frame ⟨"double", "ssd"⟩ [([1], [2])] [3]
      (configurationKeyList (LocalityPolicy.across 2 (asciiBytes "zoneid")
        LocalityPolicy.singleton) (asciiBytes "2") (asciiBytes "1"))
      (by decide)⟩

/-- C2: the policy encoder is total over the variant and produces exactly
the documented byte layout: `singleton` is the little-endian uint32 length
3 followed by "One"; `across` is the little-endian uint32 6, "Across", the
little-endian uint32 field length, the raw field bytes, the little-endian
uint32 count, then the recursive subpolicy encoding with no length
prefix. -/
theorem binaryRepresentation_layout :
    (LocalityPolicy.singleton.binaryRepresentation = le32 3 ++ asciiBytes "One") ∧
    (∀ (count : Nat) (field : Bytes) (subpolicy : LocalityPolicy),
      (LocalityPolicy.across count field subpolicy).binaryRepresentation =
        le32 6 ++ asciiBytes "Across" ++ le32 field.length ++ field ++ le32 count ++
          subpolicy.binaryRepresentation) ∧
    le32 3 = [3, 0, 0, 0] ∧ le32 6 = [6, 0, 0, 0] ∧
    asciiBytes "One" = [79, 110, 101] ∧
    asciiBytes "Across" = [65, 99, 114, 111, 115, 115] :=
  ⟨by decide, fun _ _ _ => rfl, by decide, by decide, by decide, by decide⟩

/-- C5: for each recognized replication mode and storage engine the key
builder returns exactly these seven pairs: replica counts "1"/"2"/"3"
(bytes 49/50/51), the anti-quorum constant "0" (byte 48), both policy
blobs prefixed by the fixed 8-byte protocol-version tag
01 00 04 51 A5 00 DB 0F, and the engine code ssd→"1", memory→"2". -/
theorem getConfigurationKeys_layout :
    configurationProtocolVersion = [1, 0, 4, 81, 165, 0, 219, 15] ∧
    getConfigurationKeys ⟨"single", "ssd"⟩ = Except.ok
      [(storageReplicasKey, [49]), (logReplicasKey, [49]), (logAntiQuorumKey, [48]),
       (storagePolicyKey, [1, 0, 4, 81, 165, 0, 219, 15, 3, 0, 0, 0, 79, 110, 101]),
       (logPolicyKey, [1, 0, 4, 81, 165, 0, 219, 15, 3, 0, 0, 0, 79, 110, 101]),
       (storageEngineKey, [49]), (logEngineKey, [49])] ∧
    getConfigurationKeys ⟨"single", "memory"⟩ = Except.ok
      [(storageReplicasKey, [49]), (logReplicasKey, [49]), (logAntiQuorumKey, [48]),
       (storagePolicyKey, [1, 0, 4, 81, 165, 0, 219, 15, 3, 0, 0, 0, 79, 110, 101]),
       (logPolicyKey, [1, 0, 4, 81, 165, 0, 219, 15, 3, 0, 0, 0, 79, 110, 101]),
       (storageEngineKey, [50]), (logEngineKey, [50])] ∧
    getConfigurationKeys ⟨"double", "ssd"⟩ = Except.ok
      [(storageReplicasKey, [50]), (logReplicasKey, [50]), (logAntiQuorumKey, [48]),
       (storagePolicyKey, [1, 0, 4, 81, 165, 0, 219, 15, 6, 0, 0, 0, 65, 99, 114, 111,
         115, 115, 6, 0, 0, 0, 122, 111, 110, 101, 105, 100, 2, 0, 0, 0, 3, 0, 0, 0,
         79, 110, 101]),
       (logPolicyKey, [1, 0, 4, 81, 165, 0, 219, 15, 6, 0, 0, 0, 65, 99, 114, 111,
         115, 115, 6, 0, 0, 0, 122, 111, 110, 101, 105, 100, 2, 0, 0, 0, 3, 0, 0, 0,
         79, 110, 101]),
       (storageEngineKey, [49]), (logEngineKey, [49])] ∧
    getConfigurationKeys ⟨"double", "memory"⟩ = Except.ok
      [(storageReplicasKey, [50]), (logReplicasKey, [50]), (logAntiQuorumKey, [48]),
       (storagePolicyKey, [1, 0, 4, 81, 165, 0, 219, 15, 6, 0, 0, 0, 65, 99, 114, 111,
         115, 115, 6, 0, 0, 0, 122, 111, 110, 101, 105, 100, 2, 0, 0, 0, 3, 0, 0, 0,
         79, 110, 101]),
       (logPolicyKey, [1, 0, 4, 81, 165, 0, 219, 15, 6, 0, 0, 0, 65, 99, 114, 111,
         115, 115, 6, 0, 0, 0, 122, 111, 110, 101, 105, 100, 2, 0, 0, 0, 3, 0, 0, 0,
         79, 110, 101]),
       (storageEngineKey, [50]), (logEngineKey, [50])] ∧
    getConfigurationKeys ⟨"triple", "ssd"⟩ = Except.ok
      [(storageReplicasKey, [51]), (logReplicasKey, [51]), (logAntiQuorumKey, [48]),
       (storagePolicyKey, [1, 0, 4, 81, 165, 0, 219, 15, 6, 0, 0, 0, 65, 99, 114, 111,
         115, 115, 6, 0, 0, 0, 122, 111, 110, 101, 105, 100, 3, 0, 0, 0, 3, 0, 0, 0,
         79, 110, 101]),
       (logPolicyKey, [1, 0, 4, 81, 165, 0, 219, 15, 6, 0, 0, 0, 65, 99, 114, 111,
         115, 115, 6, 0, 0, 0, 122, 111, 110, 101, 105, 100, 3, 0, 0, 0, 3, 0, 0, 0,
         79, 110, 101]),
       (storageEngineKey, [49]), (logEngineKey, [49])] ∧
    getConfigurationKeys ⟨"triple", "memory"⟩ = Except.ok
      [(storageReplicasKey, [51]), (logReplicasKey, [51]), (logAntiQuorumKey, [48]),
       (storagePolicyKey, [1, 0, 4, 81, 165, 0, 219, 15, 6, 0, 0, 0, 65, 99, 114, 111,
         115, 115, 6, 0, 0, 0, 122, 111, 110, 101, 105, 100, 3, 0, 0, 0, 3, 0, 0, 0,
         79, 110, 101]),
       (logPolicyKey, [1, 0, 4, 81, 165, 0, 219, 15, 6, 0, 0, 0, 65, 99, 114, 111,
         115, 115, 6, 0, 0, 0, 122, 111, 110, 101, 105, 100, 3, 0, 0, 0, 3, 0, 0, 0,
         79, 110, 101]),
       (storageEngineKey, [50]), (logEngineKey, [50])] := by
  refine ⟨by decide, ?_, ?_, ?_, ?_, ?_, ?_⟩ <;> decide

/-- C7: a configuration whose replication mode is not single/double/triple
or whose storage engine is not ssd/memory is rejected with an error and no
key-value pairs are produced. -/
theorem getConfigurationKeys_unknown_error (c : DatabaseConfiguration)
    (h : (c.ReplicationMode ≠ "single" ∧ c.ReplicationMode ≠ "double" ∧
          c.ReplicationMode ≠ "triple") ∨
         (c.StorageEngine ≠ "ssd" ∧ c.StorageEngine ≠ "memory")) :
    ∃ msg, getConfigurationKeys c = Except.error msg := by
  have hE : ∀ (p : LocalityPolicy) (r : Bytes),
      c.StorageEngine ≠ "ssd" → c.StorageEngine ≠ "memory" →
      engineKeys p r c.StorageEngine =
        Except.error ("Unknown storage engine " ++ c.StorageEngine) := by
    intro p r h1 h2
    unfold engineKeys
    rw [if_neg h1, if_neg h2]
  rcases h with hm | he
  · exact ⟨_, by
      unfold getConfigurationKeys
      rw [if_neg hm.1, if_neg hm.2.1, if_neg hm.2.2]⟩
  · by_cases h1 : c.ReplicationMode = "single"
    · exact ⟨_, by
        unfold getConfigurationKeys
        rw [if_pos h1, hE _ _ he.1 he.2]⟩
    · by_cases h2 : c.ReplicationMode = "double"
      · exact ⟨_, by
          unfold getConfigurationKeys
          rw [if_neg h1, if_pos h2, hE _ _ he.1 he.2]⟩
      · by_cases h3 : c.ReplicationMode = "triple"
        · exact ⟨_, by
            unfold getConfigurationKeys
            rw [if_neg h1, if_neg h2, if_pos h3, hE _ _ he.1 he.2]⟩
        · exact ⟨_, by
            unfold getConfigurationKeys
            rw [if_neg h1, if_neg h2, if_neg h3]⟩

/-- C7 witness: an unknown replication mode is rejected. -/
theorem getConfigurationKeys_unknown_error_witness :
    ((("quadruple" : String) ≠ "single" ∧ ("quadruple" : String) ≠ "double" ∧
      ("quadruple" : String) ≠ "triple") ∨
     (("ssd" : String) ≠ "ssd" ∧ ("ssd" : String) ≠ "memory")) ∧
    ∃ msg, getConfigurationKeys ⟨"quadruple", "ssd"⟩ = Except.error msg :=
  ⟨Or.inl (by decide),
    getConfigurationKeys_unknown_error ⟨"quadruple", "ssd"⟩ (Or.inl (by decide))⟩

/-- C8 counterexample: with both fields unrecognized the builder returns
the replication-mode error, not the storage-engine error the claim
predicts, because the mode switch returns before the engine is examined. -/
theorem storageEngine_checked_second_counterexample :
    getConfigurationKeys ⟨"foo", "bar"⟩ =
      Except.error "Unknown replication mode foo" ∧
    getConfigurationKeys ⟨"foo", "bar"⟩ ≠
      Except.error "Unknown storage engine bar" := by
  constructor
  · decide
  · decide

/-- C8 amended: the storage engine is validated only after the replication
mode is recognized; a configuration with a recognized mode and an
unrecognized engine is rejected with the storage-engine error. -/
theorem storageEngine_error_after_mode_ok (c : DatabaseConfiguration)
    (hm : c.ReplicationMode = "single" ∨ c.ReplicationMode = "double" ∨
      c.ReplicationMode = "triple")
    (he : c.StorageEngine ≠ "ssd" ∧ c.StorageEngine ≠ "memory") :
    getConfigurationKeys c =
      Except.error ("Unknown storage engine " ++ c.StorageEngine) := by
  have hE : ∀ (p : LocalityPolicy) (r : Bytes),
      engineKeys p r c.StorageEngine =
        Except.error ("Unknown storage engine " ++ c.StorageEngine) := by
    intro p r
    unfold engineKeys
    rw [if_neg he.1, if_neg he.2]
  rcases hm with h | h | h <;> unfold getConfigurationKeys
  · rw [if_pos h]
    exact hE _ _
  · rw [if_neg (by rw [h]; decide), if_pos h]
    exact hE _ _
  · rw [if_neg (by rw [h]; decide), if_neg (by rw [h]; decide), if_pos h]
    exact hE _ _

/-- C8 amended witness: mode "single" with engine "tape" yields the
storage-engine error. -/
theorem storageEngine_error_after_mode_ok_witness :
    ((("single" : String) = "single" ∨ ("single" : String) = "double" ∨
      ("single" : String) = "triple") ∧
     (("tape" : String) ≠ "ssd" ∧ ("tape" : String) ≠ "memory")) ∧
    getConfigurationKeys ⟨"single", "tape"⟩ =
      Except.error ("Unknown storage engine " ++ "tape") :=
  ⟨⟨Or.inl rfl, by decide⟩,
    storageEngine_error_after_mode_ok ⟨"single", "tape"⟩ (Or.inl rfl) (by decide)⟩

/-- C1 (code behavior at the failing input): a new-database attempt that
fails with store error 1020 re-reads the marker key; when the marker holds
this attempt's own token the apply returns success, but when it holds a
different token the surfaced terminal error is the zero-value fdb.Error
(code 0) — `return fdbErr` after the failed type assertion — and not the
"Database has already been created" error the claim describes.  Neither
outcome is retried. -/
theorem newDatabaseRaceLost_surfacesZeroFdbError :
    handleAttemptError (fun _ => true) true
        [(initIDKey, [99, 1, 2, 3, 4, 5, 6, 7, 8, 9, 10, 11, 12, 13, 14, 15])]
        [0, 1, 2, 3, 4, 5, 6, 7, 8, 9, 10, 11, 12, 13, 14, 15]
        (GoError.fdbError 1020) 1 =
      some (some (GoError.fdbError 0)) ∧
    handleAttemptError (fun _ => true) true
        [(initIDKey, [99, 1, 2, 3, 4, 5, 6, 7, 8, 9, 10, 11, 12, 13, 14, 15])]
        [0, 1, 2, 3, 4, 5, 6, 7, 8, 9, 10, 11, 12, 13, 14, 15]
        (GoError.fdbError 1020) 1 ≠
      some (some (GoError.plainError "Database has already been created")) ∧
    handleAttemptError (fun _ => true) true
        [(initIDKey, [0, 1, 2, 3, 4, 5, 6, 7, 8, 9, 10, 11, 12, 13, 14, 15])]
        [0, 1, 2, 3, 4, 5, 6, 7, 8, 9, 10, 11, 12, 13, 14, 15]
        (GoError.fdbError 1007) 1 =
      some none := by
  refine ⟨by decide, by decide, by decide⟩

/-- C6: excluding an address and then including it leaves the exclusion
set empty, provided every pre-existing exclusion entry is for that address
or one of its per-port sub-entries — include clears the exact entry and
range-clears everything under `entry ++ ":"`. -/
theorem excludeThenInclude_leavesExclusionSetEmpty (store : Store) (e1 e2 a : Bytes)
    (h : ∀ kv ∈ store, (excludedKey ++ [47]).isPrefixOf kv.1 = true →
      kv.1 = excludedAddressKey a ∨
      (excludedAddressKey a ++ [58]).isPrefixOf kv.1 = true) :
    exclusionSet (includeInstances (excludeInstances store e1 [a]) e2 [a]) = [] := by
  unfold excludeInstances includeInstances exclusionSet
  simp only [List.foldl_cons, List.foldl_nil]
  rw [List.map_eq_nil_iff, List.filter_eq_nil_iff]
  intro kv hkv
  unfold storeClearRange at hkv
  rw [List.mem_filter] at hkv
  obtain ⟨hkv, hrange⟩ := hkv
  unfold storeClear at hkv
  rw [List.mem_filter] at hkv
  obtain ⟨hkv, hexact⟩ := hkv
  have hexact2 : kv.1 ≠ excludedAddressKey a := by
    intro heq
    rw [heq] at hexact
    simp at hexact
  have hrange2 : ¬ (excludedAddressKey a ++ [58]).isPrefixOf kv.1 = true := by
    intro heq
    rw [heq] at hrange
    simp at hrange
  rcases mem_storeSet _ _ _ _ hkv with h1 | h1
  · rw [h1]
    show ¬ (excludedKey ++ [47]).isPrefixOf excludedKey = true
    decide
  rcases mem_storeSet _ _ _ _ h1 with h2 | h2
  · exact absurd (by rw [h2]) hexact2
  rcases mem_storeSet _ _ _ _ h2 with h3 | h3
  · rw [h3]
    show ¬ (excludedKey ++ [47]).isPrefixOf excludedKey = true
    decide
  · intro hpre
    rcases h kv h3 hpre with h4 | h4
    · exact hexact2 h4
    · exact hrange2 h4

/-- C6 witness: a prior exclusion of "10.0.0.1:4500" followed by
exclude/include of "10.0.0.1" leaves the exclusion set empty. -/
theorem excludeThenInclude_leavesExclusionSetEmpty_witness :
    (∀ kv ∈ ([(excludedAddressKey (asciiBytes "10.0.0.1:4500"), ([] : Bytes))] : Store),
      (excludedKey ++ [47]).isPrefixOf kv.1 = true →
      kv.1 = excludedAddressKey (asciiBytes "10.0.0.1") ∨
      (excludedAddressKey (asciiBytes "10.0.0.1") ++ [58]).isPrefixOf kv.1 = true) ∧
    exclusionSet (includeInstances (excludeInstances
      [(excludedAddressKey (asciiBytes "10.0.0.1:4500"), [])] [1]
      [asciiBytes "10.0.0.1"]) [2] [asciiBytes "10.0.0.1"]) = [] :=
  ⟨by decide,
    excludeThenInclude_leavesExclusionSetEmpty
      [(excludedAddressKey (asciiBytes "10.0.0.1:4500"), [])] [1] [2]
      (asciiBytes "10.0.0.1") (by decide)⟩

/-- C10: `CanSafelyRemove` returns an empty result and no error for every
input, in both the real client and the in-memory test double. -/
theorem canSafelyRemove_always_empty :
    ∀ (addresses : List String) (client : MockAdminClient),
      realCanSafelyRemove addresses = ([], none) ∧
      mockCanSafelyRemove client addresses = ([], none) :=
  fun _ _ => ⟨rfl, rfl⟩

end FdbCluster
